import Mathlib

/-!
Verification development for the `ids7client` Python package
(`src/ids7client/python/ids7client/ai/client.py`), a thin client for the
IDS7 server AI API.  The client and its four public operations are embedded
shallowly: HTTP effects become an explicit `World` oracle assigning an
outcome to every attempt of every request, fallible operations return
`Except ClientError`, and each operation additionally reports its final
client state and the list of requests it issued, so that frame and
request-shape properties can be stated directly.

The modules `ids7client.helpers` (the `connection_retry` decorator),
`ids7client.errors` (`IDS7RequestError`) and `ids7client.ai.schemas`
(the pydantic models `ApplicationInfo`, `ImageInfo`, `Result`,
`ResultResponse`) are not part of the sources; those pieces are modelled
from the specification, as marked in their doc comments.
-/

namespace IDS7

/-- A JSON value, the payload type of all request and response bodies. -/
inductive Json where
  | null : Json
  | bool : Bool → Json
  | num : Int → Json
  | str : String → Json
  | arr : List Json → Json
  | obj : List (String × Json) → Json

/-- Looks up a field of a JSON object that must be a string, returning
`none` when the value is not an object, the field is missing, or the field
holds a non-string value.  Used by the modelled pydantic validators. -/
def Json.strField (j : Json) (k : String) : Option String :=
  match j with
  | .obj fields =>
    match fields.lookup k with
    | some (.str s) => some s
    | _ => none
  | _ => none

/-- An HTTP response as the `requests` library presents it to the client:
a status code, the raw body text (`resp.text`) and the parsed JSON body
(`resp.json()`).  Responses whose body is not JSON never reach the parts
of the client the claims are about, so `json` is total here. -/
structure HttpResp where
  status : Nat
  text : String
  json : Json

/-- Outcome of one attempt to send a request over the network: either a
transient connection-level failure (connection refused, timeout, DNS
failure), or an HTTP response that was successfully received. -/
inductive Attempt where
  | connFail : Attempt
  | response : HttpResp → Attempt

/-- HTTP method of a request. -/
inductive Method where
  | GET : Method
  | POST : Method
  | PUT : Method
deriving DecidableEq

/-- A fully-shaped outgoing request exactly as the client hands it to
`requests.get` / `requests.post` / `requests.put`: method, the full URL,
the query-parameter dictionary (`params=`), the header dictionary and the
optional JSON body (`json=`). -/
structure Request where
  method : Method
  url : String
  params : List (String × String)
  headers : List (String × String)
  body : Option Json

/-- The external world: a bound on the number of attempts the retry policy
makes, and a network oracle giving the outcome of attempt `i` of a
request. -/
structure World where
  maxAttempts : Nat
  net : Request → Nat → Attempt

/-- Errors surfaced by the client.
`request s t p` is `IDS7RequestError(s, t, p)` from `ids7client.errors`
(not under the sources; its constructor arguments — status code, raw body
text, request path — are visible at every raise site in `client.py`).
`validation` is a pydantic `ValidationError` (a distinct kind from
`request`).  `connection` is the transport error surfaced when the retry
bound is exhausted by transient connection failures.  `typeError` models
the Python `TypeError` of splatting `None`, reachable only with
`parse_response = false`, which this module never uses. -/
inductive ClientError where
  | request : Nat → String → String → ClientError
  | validation : ClientError
  | connection : ClientError
  | typeError : ClientError
deriving DecidableEq

/-- Modelled from the spec: the `connection_retry` decorator of
`ids7client.helpers` is not under the sources.  Per the spec it re-attempts
the wrapped call a bounded number of times on transient connection
failures only, and never re-attempts once an HTTP response was received —
a received response ends the loop at once, whatever its status code.
`net i` is the outcome of attempt `i` and `fuel` the remaining attempt
budget; exhausting the budget surfaces the underlying transport error. -/
def retryLoop (net : Nat → Attempt) (i : Nat) : Nat → Except ClientError HttpResp
  | 0 => .error .connection
  | fuel + 1 =>
    match net i with
    | .connFail => retryLoop net (i + 1) fuel
    | .response r => .ok r

/-- Sends a request in world `w` under the retry policy, starting at
attempt `0` with the full attempt budget. -/
def issue (w : World) (req : Request) : Except ClientError HttpResp :=
  retryLoop (w.net req) 0 w.maxAttempts

/-- Python `dict` insert-or-update of a single key, the semantics of
`self._headers.update {...}` applied key by key: an existing key keeps its
position and gets the new value, a fresh key is appended. -/
def dictSet (d : List (String × String)) (k v : String) : List (String × String) :=
  if d.any (fun p => p.1 == k) then
    d.map (fun p => if p.1 == k then (k, v) else p)
  else d ++ [(k, v)]

/-- Modelled from the spec: `ApplicationInfo` of `ids7client.ai.schemas` is
not under the sources.  Per the spec it is an immutable record with two
required string fields, `apiVersion` and `softwareVersion`. -/
structure ApplicationInfo where
  apiVersion : String
  softwareVersion : String
deriving DecidableEq

/-- Modelled from the spec: pydantic validation of a JSON payload against
`ApplicationInfo` — constructs the record, rejecting the payload with a
validation error when a required field is missing or of the wrong type. -/
def ApplicationInfo.validate (j : Json) : Except ClientError ApplicationInfo :=
  match j.strField "apiVersion", j.strField "softwareVersion" with
  | some a, some s => .ok { apiVersion := a, softwareVersion := s }
  | _, _ => .error .validation

/-- Modelled from the spec: `ImageInfo` of `ids7client.ai.schemas` is not
under the sources.  Per the spec it is an immutable record describing a
slide, with a required identifier; its optional metadata fields do not
participate in any claim and are omitted. -/
structure ImageInfo where
  id : String
deriving DecidableEq

/-- Modelled from the spec: pydantic validation against `ImageInfo`;
rejects payloads missing the required identifier field or giving it a
non-string value. -/
def ImageInfo.validate (j : Json) : Except ClientError ImageInfo :=
  match j.strField "id" with
  | some i => .ok { id := i }
  | none => .error .validation

/-- Modelled from the spec: `Result` of `ids7client.ai.schemas` is not
under the sources.  It is a caller-constructed record whose field set is
opaque to the client and is serialized to JSON exactly as supplied. -/
structure Result where
  fields : List (String × Json)

/-- Serialization of a `Result` to its JSON object, the
`results.model_dump()` call of `client.py`. -/
def Result.model_dump (r : Result) : Json := .obj r.fields

/-- Modelled from the spec: `ResultResponse` of `ids7client.ai.schemas` is
not under the sources.  Per the spec it is an immutable record containing
at least the assigned result identifier. -/
structure ResultResponse where
  id : String
deriving DecidableEq

/-- Modelled from the spec: pydantic validation against `ResultResponse`;
rejects payloads missing the required identifier field or giving it a
non-string value. -/
def ResultResponse.validate (j : Json) : Except ClientError ResultResponse :=
  match j.strField "id" with
  | some i => .ok { id := i }
  | none => .error .validation

/-- The client state: the `__slots__` of `IDS7AIClient` in `client.py` —
base URL, callback token, registered application id, the header
dictionary, and the cached `/info` record. -/
structure IDS7AIClient where
  _url : String
  _token : String
  _app_id : String
  _headers : List (String × String)
  ids7_version : ApplicationInfo
deriving DecidableEq

/-- Outcome of running one client operation: its result, the client state
after the call, and the requests it handed to the transport (each listed
once however many attempts the retry policy made for it). -/
structure OpOut (α : Type) where
  result : Except ClientError α
  final : IDS7AIClient
  requests : List Request

namespace IDS7AIClient

/-- The GET request `_get` builds at lines 51–52 of `client.py`:
`url = f"{self._url}{path}"` and
`requests.get(url, params=kwargs, headers=self._headers)`. -/
def getReq (self : IDS7AIClient) (path : String) (kwargs : List (String × String)) : Request :=
  { method := .GET
    url := self._url ++ path
    params := kwargs
    headers := self._headers
    body := none }

/-- `IDS7AIClient._get` (lines 47–55 of `client.py`): runs a GET request
under the retry policy; a received status other than 200 raises
`IDS7RequestError(status, text, path)`, otherwise the parsed JSON body is
returned.  The method reads `self._url` and `self._headers` and assigns
nothing, so the final state is `self`. -/
def _get (self : IDS7AIClient) (w : World) (path : String)
    (kwargs : List (String × String)) : OpOut Json :=
  let req := self.getReq path kwargs
  { result :=
      match issue w req with
      | .error e => .error e
      | .ok resp =>
        if resp.status ≠ 200 then .error (.request resp.status resp.text path)
        else .ok resp.json
    final := self
    requests := [req] }

/-- The POST request `_post` builds at lines 72–73 of `client.py`:
`url = f"{self._url}{path}"` and
`requests.post(url, json=payload, headers=self._headers)`. -/
def postReq (self : IDS7AIClient) (path : String) (payload : Json) : Request :=
  { method := .POST
    url := self._url ++ path
    params := []
    headers := self._headers
    body := some payload }

/-- The PUT request `_put` builds at lines 95–96 of `client.py`:
`url = f"{self._url}{path}"` and
`requests.put(url, json=values, headers=self._headers)`. -/
def putReq (self : IDS7AIClient) (path : String) (values : Json) : Request :=
  { method := .PUT
    url := self._url ++ path
    params := []
    headers := self._headers
    body := some values }

/-- `IDS7AIClient._post` (lines 57–78 of `client.py`): runs a POST request
with a JSON body under the retry policy; a received status other than 201
raises `IDS7RequestError(status, text, path)`; on 201 the JSON body is
returned when `parse_response` is true and `None` otherwise. -/
def _post (self : IDS7AIClient) (w : World) (path : String) (payload : Json)
    (parse_response : Bool) : OpOut (Option Json) :=
  let req := self.postReq path payload
  { result :=
      match issue w req with
      | .error e => .error e
      | .ok resp =>
        if resp.status ≠ 201 then .error (.request resp.status resp.text path)
        else if parse_response then .ok (some resp.json)
        else .ok none
    final := self
    requests := [req] }

/-- `IDS7AIClient._put` (lines 80–101 of `client.py`): runs a PUT request
with a JSON body under the retry policy; a received status other than 200
raises `IDS7RequestError(status, text, path)`; on 200 the JSON body is
returned when `parse_response` is true and `None` otherwise. -/
def _put (self : IDS7AIClient) (w : World) (path : String) (values : Json)
    (parse_response : Bool) : OpOut (Option Json) :=
  let req := self.putReq path values
  { result :=
      match issue w req with
      | .error e => .error e
      | .ok resp =>
        if resp.status ≠ 200 then .error (.request resp.status resp.text path)
        else if parse_response then .ok (some resp.json)
        else .ok none
    final := self
    requests := [req] }

/-- The client state right after lines 29–32 of `__init__`, before the
`/info` exchange: the three constructor arguments stored, the header
dictionary holding exactly `Authorization: Bearer <token>`, and
`ids7_version` not yet assigned — its placeholder value is never read by
`_get`, which uses only `_url` and `_headers`. -/
def preInit (url token app_id : String) : IDS7AIClient :=
  { _url := url
    _token := token
    _app_id := app_id
    _headers := [("Authorization", "Bearer " ++ token)]
    ids7_version := { apiVersion := "", softwareVersion := "" } }

/-- The `/info` exchange of `_retrieve_ids7_versions` (line 38 of
`client.py`): `self._get("/info")` on the freshly-stored state. -/
def infoExchange (url token app_id : String) (w : World) : Except ClientError Json :=
  ((preInit url token app_id)._get w "/info" []).result

/-- `IDS7AIClient.__init__` together with `_retrieve_ids7_versions`
(lines 28–45 of `client.py`): stores the arguments and the Authorization
header, issues GET `/info`, validates the body as `ApplicationInfo`, and
merges the two negotiated version headers into the header dictionary;
any failure of the exchange or of validation propagates and no client
value is produced. -/
def init (url token app_id : String) (w : World) : Except ClientError IDS7AIClient :=
  let c0 := preInit url token app_id
  match infoExchange url token app_id w with
  | .error e => .error e
  | .ok j =>
    match ApplicationInfo.validate j with
    | .error e => .error e
    | .ok versions =>
      .ok { c0 with
              _headers :=
                dictSet (dictSet c0._headers "X-Sectra-ApiVersion" versions.apiVersion)
                  "X-Sectra-SoftwareVersion" versions.softwareVersion
              ids7_version := versions }

/-- The request path of `get_image_info` (line 118 of `client.py`):
the f-string interpolation `/slides/{slide_id}/info`, verbatim. -/
def imageInfoPath (slide_id : String) : String :=
  "/slides/" ++ slide_id ++ "/info"

/-- The query-parameter dictionary of `get_image_info` (lines 119–123 of
`client.py`): starts empty, gains `scope=extended` when `extended` is
true, then gains `includePHI=true` when `phi` is true. -/
def imageInfoParams (extended phi : Bool) : List (String × String) :=
  (if extended then [("scope", "extended")] else []) ++
    (if phi then [("includePHI", "true")] else [])

/-- `IDS7AIClient.get_image_info` (lines 103–124 of `client.py`): GET
`/slides/{slide_id}/info` with the optional query parameters, then
validation of the body as `ImageInfo`. -/
def get_image_info (self : IDS7AIClient) (w : World) (slide_id : String)
    (extended phi : Bool) : OpOut ImageInfo :=
  let g := self._get w (imageInfoPath slide_id) (imageInfoParams extended phi)
  { result :=
      match g.result with
      | .error e => .error e
      | .ok j => ImageInfo.validate j
    final := g.final
    requests := g.requests }

/-- `IDS7AIClient.create_results` (lines 126–137 of `client.py`): POST
`/applications/{app_id}/results` with the serialized `Result` as body
(`parse_response` left at its default, true), then validation of the body
as `ResultResponse`. -/
def create_results (self : IDS7AIClient) (w : World) (results : Result) :
    OpOut ResultResponse :=
  let p := self._post w ("/applications/" ++ self._app_id ++ "/results")
    results.model_dump true
  { result :=
      match p.result with
      | .error e => .error e
      | .ok (some j) => ResultResponse.validate j
      | .ok none => .error .typeError
    final := p.final
    requests := p.requests }

/-- `IDS7AIClient.get_results` (lines 139–149 of `client.py`): GET
`/application/{app_id}/results/{id}` — singular `application` — then
validation of the body as `ResultResponse`. -/
def get_results (self : IDS7AIClient) (w : World) (id : String) :
    OpOut ResultResponse :=
  let g := self._get w ("/application/" ++ self._app_id ++ "/results/" ++ id) []
  { result :=
      match g.result with
      | .error e => .error e
      | .ok j => ResultResponse.validate j
    final := g.final
    requests := g.requests }

/-- `IDS7AIClient.update_results` (lines 151–163 of `client.py`): PUT
`/application/{app_id}/results/{id}` — singular `application` — with the
serialized `Result` as body, then validation as `ResultResponse`. -/
def update_results (self : IDS7AIClient) (w : World) (id : String)
    (results : Result) : OpOut ResultResponse :=
  let p := self._put w ("/application/" ++ self._app_id ++ "/results/" ++ id)
    results.model_dump true
  { result :=
      match p.result with
      | .error e => .error e
      | .ok (some j) => ResultResponse.validate j
      | .ok none => .error .typeError
    final := p.final
    requests := p.requests }

end IDS7AIClient

open IDS7AIClient

/-- Claim C2: for every slide id and every pair of booleans, `get_image_info`
issues a single GET to the path `/slides/` ++ slide id ++ `/info` whose query
parameters contain `scope=extended` exactly when `extended` is true and
`includePHI=true` exactly when `phi` is true; when a flag is false the
corresponding query key is absent entirely. -/
theorem C2_image_info_query_params (self : IDS7AIClient) (w : World)
    (slide_id : String) (extended phi : Bool) :
    ∃ req : Request,
      (self.get_image_info w slide_id extended phi).requests = [req] ∧
      req.method = .GET ∧
      req.url = self._url ++ ("/slides/" ++ slide_id ++ "/info") ∧
      (req.params.lookup "scope" = if extended then some "extended" else none) ∧
      (req.params.lookup "includePHI" = if phi then some "true" else none) := by
  refine ⟨self.getReq (imageInfoPath slide_id) (imageInfoParams extended phi),
    rfl, rfl, rfl, ?_, ?_⟩ <;> cases extended <;> cases phi <;> rfl

/-- Claim C5: `create_results` issues its request to
`/applications/` ++ app id ++ `/results` (plural, no result id), while
`get_results` and `update_results` both issue their requests to
`/application/` ++ app id ++ `/results/` ++ id (singular); the asymmetry is
preserved exactly, together with the respective HTTP methods. -/
theorem C5_application_path_asymmetry (self : IDS7AIClient) (w : World)
    (id : String) (results : Result) :
    (self.create_results w results).requests.map Request.url =
      [self._url ++ ("/applications/" ++ self._app_id ++ "/results")] ∧
    (self.create_results w results).requests.map Request.method = [Method.POST] ∧
    (self.get_results w id).requests.map Request.url =
      [self._url ++ ("/application/" ++ self._app_id ++ "/results/" ++ id)] ∧
    (self.get_results w id).requests.map Request.method = [Method.GET] ∧
    (self.update_results w id results).requests.map Request.url =
      [self._url ++ ("/application/" ++ self._app_id ++ "/results/" ++ id)] ∧
    (self.update_results w id results).requests.map Request.method = [Method.PUT] :=
  ⟨rfl, rfl, rfl, rfl, rfl, rfl⟩

/-- Claim C8: every public operation leaves the client state — base URL,
token, application id, header dictionary and stored `ids7_version` —
exactly as it was before the call, in every world and for every outcome. -/
theorem C8_operations_preserve_state (self : IDS7AIClient) (w : World)
    (slide_id id : String) (extended phi : Bool) (results : Result) :
    (self.get_image_info w slide_id extended phi).final = self ∧
    (self.create_results w results).final = self ∧
    (self.get_results w id).final = self ∧
    (self.update_results w id results).final = self :=
  ⟨rfl, rfl, rfl, rfl⟩

/-- Claim C9: caller-supplied identifiers are interpolated into request
paths verbatim, with no presence check, escaping or validation; in
particular the empty slide id makes `get_image_info` issue its GET to
`/slides//info`. -/
theorem C9_identifiers_interpolated_verbatim (self : IDS7AIClient) (w : World)
    (slide_id id : String) (extended phi : Bool) (results : Result) :
    (self.get_image_info w slide_id extended phi).requests.map Request.url =
      [self._url ++ ("/slides/" ++ slide_id ++ "/info")] ∧
    (self.get_results w id).requests.map Request.url =
      [self._url ++ ("/application/" ++ self._app_id ++ "/results/" ++ id)] ∧
    (self.update_results w id results).requests.map Request.url =
      [self._url ++ ("/application/" ++ self._app_id ++ "/results/" ++ id)] ∧
    (self.get_image_info w "" extended phi).requests.map Request.url =
      [self._url ++ "/slides//info"] ∧
    (self.get_image_info w "" extended phi).requests ≠ [] := by
  refine ⟨rfl, rfl, rfl, ?_, by simp [get_image_info, _get]⟩
  show [self._url ++ ("/slides/" ++ "" ++ "/info")] = [self._url ++ "/slides//info"]
  rfl

/-- Claim C10: the full request URL of every GET, POST and PUT is the plain
string concatenation of the base URL and the path, with no normalization;
a base URL ending in a slash therefore yields a double slash before the
path, as the concrete client built on base URL `http://h/` shows. -/
theorem C10_url_plain_concatenation (self : IDS7AIClient) (w : World)
    (path slide_id : String) (kwargs : List (String × String)) (payload : Json)
    (pr : Bool) :
    (self._get w path kwargs).requests.map Request.url = [self._url ++ path] ∧
    (self._post w path payload pr).requests.map Request.url = [self._url ++ path] ∧
    (self._put w path payload pr).requests.map Request.url = [self._url ++ path] ∧
    ((preInit "http://h/" "t" "a").get_image_info w slide_id false false).requests.map
        Request.url = ["http://h/" ++ ("/slides/" ++ slide_id ++ "/info")] ∧
    ((preInit "http://h/" "t" "a").get_image_info w "s" false false).requests.map
        Request.url = ["http://h//slides/s/info"] :=
  ⟨rfl, rfl, rfl, rfl, rfl⟩

/-- Exhausting the whole attempt budget on transient connection failures
surfaces the transport error. -/
theorem retryLoop_exhaust (net : Nat → Attempt) :
    ∀ fuel i, (∀ k, k < fuel → net (i + k) = .connFail) →
      retryLoop net i fuel = .error .connection := by
  intro fuel
  induction fuel with
  | zero => intro i _; rfl
  | succ n ih =>
    intro i h
    have h0 : net i = .connFail := by simpa using h 0 (Nat.succ_pos n)
    unfold retryLoop
    rw [h0]
    exact ih (i + 1) fun k hk => by
      have hx := h (k + 1) (by omega)
      have hik : i + 1 + k = i + (k + 1) := by omega
      rw [hik]
      exact hx

/-- A response received on the very first attempt ends the retry loop at
once, whatever its status code. -/
theorem issue_first_response (w : World) (req : Request) (r : HttpResp)
    (h0 : w.net req 0 = .response r) (hb : 1 ≤ w.maxAttempts) :
    issue w req = .ok r := by
  obtain ⟨n, hn⟩ : ∃ n, w.maxAttempts = n + 1 := ⟨w.maxAttempts - 1, by omega⟩
  unfold issue
  rw [hn]
  unfold retryLoop
  rw [h0]

/-- A transient failure on the first attempt followed by a response on the
second is absorbed by the retry policy. -/
theorem issue_second_response (w : World) (req : Request) (r : HttpResp)
    (h0 : w.net req 0 = .connFail) (h1 : w.net req 1 = .response r)
    (hb : 2 ≤ w.maxAttempts) : issue w req = .ok r := by
  obtain ⟨n, hn⟩ : ∃ n, w.maxAttempts = n + 2 := ⟨w.maxAttempts - 2, by omega⟩
  unfold issue
  rw [hn]
  unfold retryLoop
  rw [h0]
  unfold retryLoop
  rw [h1]

/-- Claim C6: the transport is retried a bounded number of times on
transient connection failures only — a received response ends the attempt
loop immediately whatever its status, exhausting the bound on connection
failures surfaces the transport error, and a transient failure on the
first attempt followed by a success within the bound returns successfully,
as `get_image_info` shows end to end. -/
theorem C6_bounded_retry_on_connection_failures (w : World) (req : Request)
    (r : HttpResp) (self : IDS7AIClient) (slide_id : String) (extended phi : Bool)
    (v : ImageInfo) :
    (w.net req 0 = .response r → 1 ≤ w.maxAttempts → issue w req = .ok r) ∧
    ((∀ i, i < w.maxAttempts → w.net req i = .connFail) →
      issue w req = .error .connection) ∧
    (w.net req 0 = .connFail → w.net req 1 = .response r → 2 ≤ w.maxAttempts →
      issue w req = .ok r) ∧
    (w.net (self.getReq (imageInfoPath slide_id) (imageInfoParams extended phi)) 0
        = .connFail →
     w.net (self.getReq (imageInfoPath slide_id) (imageInfoParams extended phi)) 1
        = .response r →
     2 ≤ w.maxAttempts → r.status = 200 → ImageInfo.validate r.json = .ok v →
     (self.get_image_info w slide_id extended phi).result = .ok v) := by
  refine ⟨issue_first_response w req r, ?_, issue_second_response w req r, ?_⟩
  · intro h
    exact retryLoop_exhaust (w.net req) w.maxAttempts 0 fun k hk => by
      simpa using h k hk
  · intro h0 h1 hb hs hv
    have hiss := issue_second_response w _ r h0 h1 hb
    simp [get_image_info, _get, hiss, hs, hv]

/-- Claim C1: construction from a valid `/info` response stores both
negotiated version headers, taken from the validated response, next to the
Authorization bearer header, and this header dictionary is attached
unchanged to every request issued by the four public operations. -/
theorem C1_negotiated_headers (url token app_id : String) (w : World)
    (c : IDS7AIClient) (h : init url token app_id w = .ok c) :
    c._headers =
      [("Authorization", "Bearer " ++ token),
       ("X-Sectra-ApiVersion", c.ids7_version.apiVersion),
       ("X-Sectra-SoftwareVersion", c.ids7_version.softwareVersion)] ∧
    (∃ r : HttpResp,
       issue w ((preInit url token app_id).getReq "/info" []) = .ok r ∧
       r.status = 200 ∧
       ApplicationInfo.validate r.json = .ok c.ids7_version) ∧
    (∀ w2 slide_id extended phi req,
       req ∈ (c.get_image_info w2 slide_id extended phi).requests →
       req.headers = c._headers) ∧
    (∀ w2 results req,
       req ∈ (c.create_results w2 results).requests → req.headers = c._headers) ∧
    (∀ w2 id req,
       req ∈ (c.get_results w2 id).requests → req.headers = c._headers) ∧
    (∀ w2 id results req,
       req ∈ (c.update_results w2 id results).requests → req.headers = c._headers) := by
  unfold init at h
  split at h
  · exact absurd h (by simp)
  next j heq =>
    split at h
    · exact absurd h (by simp)
    next versions hv =>
      rw [Except.ok.injEq] at h
      subst h
      refine ⟨rfl, ?_, ?_, ?_, ?_, ?_⟩
      · simp only [infoExchange, _get] at heq
        split at heq
        · exact absurd heq (by simp)
        next resp hiss =>
          split at heq
          · exact absurd heq (by simp)
          next hstat =>
            rw [Except.ok.injEq] at heq
            subst heq
            exact ⟨resp, hiss, by omega, hv⟩
      · intro w2 slide_id extended phi req hreq
        simp only [get_image_info, _get, List.mem_singleton] at hreq
        subst hreq
        rfl
      · intro w2 results req hreq
        simp only [create_results, _post, List.mem_singleton] at hreq
        subst hreq
        rfl
      · intro w2 id req hreq
        simp only [get_results, _get, List.mem_singleton] at hreq
        subst hreq
        rfl
      · intro w2 id results req hreq
        simp only [update_results, _put, List.mem_singleton] at hreq
        subst hreq
        rfl

/-- Once `_get` has received a response, its result is determined by the
status code: the request error on anything but 200, the body on 200. -/
theorem _get_received (self : IDS7AIClient) (w : World) (path : String)
    (kwargs : List (String × String)) (r : HttpResp)
    (hiss : issue w (self.getReq path kwargs) = .ok r) :
    (self._get w path kwargs).result =
      if r.status ≠ 200 then .error (.request r.status r.text path)
      else .ok r.json := by
  simp only [_get, hiss]

/-- Once `_post` has received a response, its result is determined by the
status code: the request error on anything but 201, the body on 201. -/
theorem _post_received (self : IDS7AIClient) (w : World) (path : String)
    (payload : Json) (pr : Bool) (r : HttpResp)
    (hiss : issue w (self.postReq path payload) = .ok r) :
    (self._post w path payload pr).result =
      if r.status ≠ 201 then .error (.request r.status r.text path)
      else if pr then .ok (some r.json) else .ok none := by
  simp only [_post, hiss]

/-- Once `_put` has received a response, its result is determined by the
status code: the request error on anything but 200, the body on 200. -/
theorem _put_received (self : IDS7AIClient) (w : World) (path : String)
    (values : Json) (pr : Bool) (r : HttpResp)
    (hiss : issue w (self.putReq path values) = .ok r) :
    (self._put w path values pr).result =
      if r.status ≠ 200 then .error (.request r.status r.text path)
      else if pr then .ok (some r.json) else .ok none := by
  simp only [_put, hiss]

/-- The modelled `ApplicationInfo` validator rejects only with the
validation error kind. -/
theorem applicationInfo_validate_error_kind (j : Json) (e : ClientError)
    (h : ApplicationInfo.validate j = .error e) : e = .validation := by
  unfold ApplicationInfo.validate at h
  split at h
  · exact absurd h (by simp)
  · rw [Except.error.injEq] at h
    exact h.symm

/-- The modelled `ImageInfo` validator rejects only with the validation
error kind. -/
theorem imageInfo_validate_error_kind (j : Json) (e : ClientError)
    (h : ImageInfo.validate j = .error e) : e = .validation := by
  unfold ImageInfo.validate at h
  split at h
  · exact absurd h (by simp)
  · rw [Except.error.injEq] at h
    exact h.symm

/-- The modelled `ResultResponse` validator rejects only with the
validation error kind. -/
theorem resultResponse_validate_error_kind (j : Json) (e : ClientError)
    (h : ResultResponse.validate j = .error e) : e = .validation := by
  unfold ResultResponse.validate at h
  split at h
  · exact absurd h (by simp)
  · rw [Except.error.injEq] at h
    exact h.symm

/-- Claim C3: once an HTTP response has been received, each operation
raises the request error carrying exactly the received status code, the
raw body text and the request path precisely when the status differs from
that operation expected success status — 200 for `get_image_info`,
`get_results`, `update_results` and the constructor `/info` call, 201 for
`create_results` — and raises no request error on the expected status. -/
theorem C3_expected_status_check (self : IDS7AIClient) (w : World) (r : HttpResp)
    (url token app_id : String) :
    (∀ slide_id extended phi,
      issue w (self.getReq (imageInfoPath slide_id) (imageInfoParams extended phi))
          = .ok r →
      ((self.get_image_info w slide_id extended phi).result =
          .error (.request r.status r.text (imageInfoPath slide_id)) ↔
        r.status ≠ 200)) ∧
    (∀ results : Result,
      issue w (self.postReq ("/applications/" ++ self._app_id ++ "/results")
          results.model_dump) = .ok r →
      ((self.create_results w results).result =
          .error (.request r.status r.text
            ("/applications/" ++ self._app_id ++ "/results")) ↔
        r.status ≠ 201)) ∧
    (∀ id,
      issue w (self.getReq ("/application/" ++ self._app_id ++ "/results/" ++ id) [])
          = .ok r →
      ((self.get_results w id).result =
          .error (.request r.status r.text
            ("/application/" ++ self._app_id ++ "/results/" ++ id)) ↔
        r.status ≠ 200)) ∧
    (∀ id (results : Result),
      issue w (self.putReq ("/application/" ++ self._app_id ++ "/results/" ++ id)
          results.model_dump) = .ok r →
      ((self.update_results w id results).result =
          .error (.request r.status r.text
            ("/application/" ++ self._app_id ++ "/results/" ++ id)) ↔
        r.status ≠ 200)) ∧
    (issue w ((preInit url token app_id).getReq "/info" []) = .ok r →
      (init url token app_id w = .error (.request r.status r.text "/info") ↔
        r.status ≠ 200)) := by
  refine ⟨?_, ?_, ?_, ?_, ?_⟩
  · intro slide_id extended phi hiss
    have hg := _get_received self w (imageInfoPath slide_id)
      (imageInfoParams extended phi) r hiss
    by_cases hs : r.status = 200
    · rw [if_neg (by omega)] at hg
      simp only [get_image_info, hg, hs, ne_eq, not_true_eq_false, iff_false]
      intro hcontra
      exact absurd (imageInfo_validate_error_kind _ _ hcontra) (by simp)
    · rw [if_pos hs] at hg
      simp only [get_image_info, hg, ne_eq, hs, not_false_eq_true, iff_true]
  · intro results hiss
    have hp := _post_received self w ("/applications/" ++ self._app_id ++ "/results")
      results.model_dump true r hiss
    by_cases hs : r.status = 201
    · rw [if_neg (by omega)] at hp
      simp only [if_pos rfl] at hp
      simp only [create_results, hp, hs, ne_eq, not_true_eq_false, iff_false]
      intro hcontra
      exact absurd (resultResponse_validate_error_kind _ _ hcontra) (by simp)
    · rw [if_pos hs] at hp
      simp only [create_results, hp, ne_eq, hs, not_false_eq_true, iff_true]
  · intro id hiss
    have hg := _get_received self w
      ("/application/" ++ self._app_id ++ "/results/" ++ id) [] r hiss
    by_cases hs : r.status = 200
    · rw [if_neg (by omega)] at hg
      simp only [get_results, hg, hs, ne_eq, not_true_eq_false, iff_false]
      intro hcontra
      exact absurd (resultResponse_validate_error_kind _ _ hcontra) (by simp)
    · rw [if_pos hs] at hg
      simp only [get_results, hg, ne_eq, hs, not_false_eq_true, iff_true]
  · intro id results hiss
    have hp := _put_received self w
      ("/application/" ++ self._app_id ++ "/results/" ++ id)
      results.model_dump true r hiss
    by_cases hs : r.status = 200
    · rw [if_neg (by omega)] at hp
      simp only [if_pos rfl] at hp
      simp only [update_results, hp, hs, ne_eq, not_true_eq_false, iff_false]
      intro hcontra
      exact absurd (resultResponse_validate_error_kind _ _ hcontra) (by simp)
    · rw [if_pos hs] at hp
      simp only [update_results, hp, ne_eq, hs, not_false_eq_true, iff_true]
  · intro hiss
    have hg := _get_received (preInit url token app_id) w "/info" [] r hiss
    by_cases hs : r.status = 200
    · rw [if_neg (by omega)] at hg
      have hinfo : infoExchange url token app_id w = .ok r.json := hg
      simp only [init, hinfo, hs, ne_eq, not_true_eq_false, iff_false]
      cases hv : ApplicationInfo.validate r.json with
      | error e =>
        have he := applicationInfo_validate_error_kind _ _ hv
        subst he
        simp
      | ok v => simp
    · rw [if_pos hs] at hg
      have hinfo : infoExchange url token app_id w =
          .error (.request r.status r.text "/info") := hg
      simp only [init, hinfo, ne_eq, hs, not_false_eq_true, iff_true]

/-- Claim C4: when the exchange returned the expected success status but
the JSON body fails validation against the target record type, the
operation surfaces the validation error — a kind distinct from the request
error — immediately, having issued its single request exactly once. -/
theorem C4_validation_error_on_bad_body (self : IDS7AIClient) (w : World)
    (r : HttpResp) (url token app_id : String) :
    (∀ slide_id extended phi,
      issue w (self.getReq (imageInfoPath slide_id) (imageInfoParams extended phi))
          = .ok r →
      r.status = 200 → ImageInfo.validate r.json = .error .validation →
      (self.get_image_info w slide_id extended phi).result = .error .validation ∧
      (self.get_image_info w slide_id extended phi).requests.length = 1) ∧
    (∀ results : Result,
      issue w (self.postReq ("/applications/" ++ self._app_id ++ "/results")
          results.model_dump) = .ok r →
      r.status = 201 → ResultResponse.validate r.json = .error .validation →
      (self.create_results w results).result = .error .validation ∧
      (self.create_results w results).requests.length = 1) ∧
    (∀ id,
      issue w (self.getReq ("/application/" ++ self._app_id ++ "/results/" ++ id) [])
          = .ok r →
      r.status = 200 → ResultResponse.validate r.json = .error .validation →
      (self.get_results w id).result = .error .validation ∧
      (self.get_results w id).requests.length = 1) ∧
    (∀ id (results : Result),
      issue w (self.putReq ("/application/" ++ self._app_id ++ "/results/" ++ id)
          results.model_dump) = .ok r →
      r.status = 200 → ResultResponse.validate r.json = .error .validation →
      (self.update_results w id results).result = .error .validation ∧
      (self.update_results w id results).requests.length = 1) ∧
    (issue w ((preInit url token app_id).getReq "/info" []) = .ok r →
      r.status = 200 → ApplicationInfo.validate r.json = .error .validation →
      init url token app_id w = .error .validation) ∧
    (∀ s t p, ClientError.validation ≠ ClientError.request s t p) := by
  refine ⟨?_, ?_, ?_, ?_, ?_, by simp⟩
  · intro slide_id extended phi hiss hs hv
    have hg := _get_received self w (imageInfoPath slide_id)
      (imageInfoParams extended phi) r hiss
    rw [if_neg (by omega)] at hg
    exact ⟨by simp only [get_image_info, hg, hv], rfl⟩
  · intro results hiss hs hv
    have hp := _post_received self w ("/applications/" ++ self._app_id ++ "/results")
      results.model_dump true r hiss
    rw [if_neg (by omega)] at hp
    simp only [if_pos rfl] at hp
    exact ⟨by simp [create_results, hp, hv], rfl⟩
  · intro id hiss hs hv
    have hg := _get_received self w
      ("/application/" ++ self._app_id ++ "/results/" ++ id) [] r hiss
    rw [if_neg (by omega)] at hg
    exact ⟨by simp only [get_results, hg, hv], rfl⟩
  · intro id results hiss hs hv
    have hp := _put_received self w
      ("/application/" ++ self._app_id ++ "/results/" ++ id)
      results.model_dump true r hiss
    rw [if_neg (by omega)] at hp
    simp only [if_pos rfl] at hp
    exact ⟨by simp [update_results, hp, hv], rfl⟩
  · intro hiss hs hv
    have hg := _get_received (preInit url token app_id) w "/info" [] r hiss
    rw [if_neg (by omega)] at hg
    have hinfo : infoExchange url token app_id w = .ok r.json := hg
    simp only [init, hinfo, hv]

/-- Claim C7: a failed `/info` exchange — transient fault after retry
exhaustion, non-200 status, or invalid response shape — makes construction
fail with the very same error, and a constructed client exists only when
the exchange succeeded and validated. -/
theorem C7_construction_failure_propagates (url token app_id : String)
    (w : World) (e : ClientError) :
    (infoExchange url token app_id w = .error e →
      init url token app_id w = .error e) ∧
    (∀ j, infoExchange url token app_id w = .ok j →
      ApplicationInfo.validate j = .error e →
      init url token app_id w = .error e) ∧
    ((∀ i, i < w.maxAttempts →
        w.net ((preInit url token app_id).getReq "/info" []) i = .connFail) →
      init url token app_id w = .error .connection) ∧
    (∀ c, init url token app_id w = .ok c →
      ∃ j, infoExchange url token app_id w = .ok j ∧
        ApplicationInfo.validate j = .ok c.ids7_version) := by
  refine ⟨?_, ?_, ?_, ?_⟩
  · intro h
    simp only [init, h]
  · intro j h hv
    simp only [init, h, hv]
  · intro h
    have hiss : issue w ((preInit url token app_id).getReq "/info" []) =
        .error .connection :=
      retryLoop_exhaust _ w.maxAttempts 0 fun k hk => by simpa using h k hk
    have hinfo : infoExchange url token app_id w = .error .connection := by
      simp only [infoExchange, _get, hiss]
    simp only [init, hinfo]
  · intro c h
    unfold init at h
    split at h
    · exact absurd h (by simp)
    next j heq =>
      split at h
      · exact absurd h (by simp)
      next versions hv =>
        rw [Except.ok.injEq] at h
        subst h
        exact ⟨j, heq, hv⟩

/-- A world whose server always answers 200 with a valid `/info` body. -/
def infoWorld : World :=
  { maxAttempts := 3
    net := fun _ _ => .response
      { status := 200
        text := ""
        json := .obj [("apiVersion", .str "1.0"), ("softwareVersion", .str "7.2")] } }

/-- The client that construction against `infoWorld` produces. -/
def infoClient : IDS7AIClient :=
  { _url := "http://h"
    _token := "t"
    _app_id := "a"
    _headers := [("Authorization", "Bearer t"),
                 ("X-Sectra-ApiVersion", "1.0"),
                 ("X-Sectra-SoftwareVersion", "7.2")]
    ids7_version := { apiVersion := "1.0", softwareVersion := "7.2" } }

/-- Concrete run of claim C1: constructing against `infoWorld` yields
`infoClient`, whose header dictionary holds the bearer header and both
negotiated version headers. -/
theorem C1_negotiated_headers_witness :
    infoClient._headers =
      [("Authorization", "Bearer " ++ "t"),
       ("X-Sectra-ApiVersion", infoClient.ids7_version.apiVersion),
       ("X-Sectra-SoftwareVersion", infoClient.ids7_version.softwareVersion)] :=
  (C1_negotiated_headers "http://h" "t" "a" infoWorld infoClient rfl).1

/-- A 404 response with body text `nf`. -/
def notFoundResp : HttpResp := { status := 404, text := "nf", json := .null }

/-- A world that always answers 404 immediately. -/
def notFoundWorld : World :=
  { maxAttempts := 1, net := fun _ _ => .response notFoundResp }

/-- Concrete run of claim C3: against the always-404 world,
`get_image_info` raises the request error carrying 404, the body text and
the request path. -/
theorem C3_expected_status_check_witness :
    ((preInit "u" "t" "a").get_image_info notFoundWorld "s" false false).result =
      .error (.request 404 "nf" (imageInfoPath "s")) :=
  ((C3_expected_status_check (preInit "u" "t" "a") notFoundWorld notFoundResp
      "u" "t" "a").1 "s" false false rfl).mpr (by decide)

/-- A 200 response whose JSON body is the empty object. -/
def emptyBodyResp : HttpResp := { status := 200, text := "", json := .obj [] }

/-- A world that always answers 200 with an empty JSON object. -/
def emptyBodyWorld : World :=
  { maxAttempts := 1, net := fun _ _ => .response emptyBodyResp }

/-- Concrete run of claim C4: a 200 response whose body lacks the required
field makes `get_image_info` surface the validation error after a single
request. -/
theorem C4_validation_error_on_bad_body_witness :
    ((preInit "u" "t" "a").get_image_info emptyBodyWorld "s" false false).result =
      .error .validation ∧
    ((preInit "u" "t" "a").get_image_info emptyBodyWorld "s" false
        false).requests.length = 1 :=
  (C4_validation_error_on_bad_body (preInit "u" "t" "a") emptyBodyWorld emptyBodyResp
      "u" "t" "a").1 "s" false false rfl rfl rfl

/-- The response the retrying world delivers from its second attempt on. -/
def secondTryResp : HttpResp :=
  { status := 200, text := "", json := .obj [("id", .str "s1")] }

/-- A world that fails transiently on the first attempt of every request
and answers 200 with a valid body afterwards. -/
def secondTryWorld : World :=
  { maxAttempts := 5
    net := fun _ i => if i = 0 then .connFail else .response secondTryResp }

/-- Concrete run of claim C6: a transient connection failure on the first
attempt followed by a 200 response on the second leaves `get_image_info`
returning its validated record with no error surfaced. -/
theorem C6_bounded_retry_on_connection_failures_witness :
    ((preInit "u" "t" "a").get_image_info secondTryWorld "s" false false).result =
      .ok { id := "s1" } :=
  (C6_bounded_retry_on_connection_failures secondTryWorld
      ((preInit "u" "t" "a").getReq (imageInfoPath "s") (imageInfoParams false false))
      secondTryResp (preInit "u" "t" "a") "s" false false { id := "s1" }).2.2.2
    rfl rfl (by decide) rfl rfl

/-- A world where every attempt of every request fails at connection
level. -/
def downWorld : World := { maxAttempts := 3, net := fun _ _ => .connFail }

/-- Concrete run of claim C7: with the network down, construction fails
with the transport error and no client value is produced. -/
theorem C7_construction_failure_propagates_witness :
    init "u" "t" "a" downWorld = .error .connection :=
  (C7_construction_failure_propagates "u" "t" "a" downWorld .connection).1 rfl

end IDS7
